import Mathlib

/-!
# StudyNotion backend controllers: payments, enrollment, profile

A shallow embedding of `server/controllers/Payments.js` and
`server/controllers/Profile.js`.

* The document database is an explicit `World` value that every controller
  receives and returns.  Collections keyed by `_id` are finite maps written as
  functions `ObjectId → Option _`; the `CourseProgress` collection, which is
  queried by other fields (`findOne`, `deleteMany`), is a list of documents.
* Calls that leave the process (payment gateway, mail, HMAC) are parameters or
  append to a log kept in the `World`.
* A thrown JavaScript error is an `Except.error`; a `try`/`catch` is a `match`
  on the `Except` value.  Side effects made before the throw stay in the world.
* A stored price is an integer; sums and products of prices are rounded the
  way IEEE-754 doubles round (`roundToDouble`).  The floating-point quotient
  of the progress percentage is a parameter.
-/

set_option autoImplicit false

namespace StudyNotion

/-! ## Data model -/

/-- Document identifiers (`mongoose.Types.ObjectId`). -/
abbrev ObjectId := Nat

/-- A lecture of a section.  `timeDuration` is the value
`parseInt(curr.timeDuration || 0)` of the stored duration. -/
structure SubSection where
  _id : ObjectId
  timeDuration : Nat
  deriving DecidableEq, Repr

/-- A populated section of a course. -/
structure Section where
  _id : ObjectId
  subSection : List SubSection
  deriving DecidableEq, Repr

/-- A `Course` document.  `price` is `none` when the field is undefined or
null, and otherwise an integer that a double holds (prices with a fraction
are outside the embedding).  `studentsEnrolled` is an array path, which mongoose initialises to the
empty array, so `Array.isArray(course.studentsEnrolled)` holds. -/
structure Course where
  _id : ObjectId
  courseName : String
  price : Option Int
  studentsEnrolled : List ObjectId
  courseContent : List Section
  deriving DecidableEq, Repr

/-- A `User` document. -/
structure User where
  _id : ObjectId
  email : String
  firstName : String
  lastName : String
  courses : List ObjectId
  courseProgress : List ObjectId
  additionalDetails : ObjectId
  deriving DecidableEq, Repr

/-- A `Profile` document. -/
structure Profile where
  _id : ObjectId
  dateOfBirth : String
  about : String
  contactNumber : String
  gender : String
  deriving DecidableEq, Repr

/-- A `CourseProgress` document. -/
structure CourseProgress where
  _id : ObjectId
  courseID : ObjectId
  userId : ObjectId
  completedVideos : List ObjectId
  deriving DecidableEq, Repr

/-- A message handed to `mailSender(email, title, body)`; the body is kept as
the list of arguments given to the mail template. -/
structure Mail where
  email : String
  title : String
  body : List String
  deriving DecidableEq, Repr

/-- The value of a JavaScript number expression over integers: an integer
that a double holds, or an infinity. -/
inductive JsNumber where
  | finite (value : Int)
  | infinity (negative : Bool)
  deriving DecidableEq, Repr

/-- The `options` object handed to `instance.orders.create`.  `notesUserId`
is `none` when `req.user.id` is not a well-formed id. -/
structure OrderOptions where
  amount : JsNumber
  currency : String
  receipt : String
  notesUserId : Option ObjectId
  notesCourses : List ObjectId
  deriving DecidableEq, Repr

/-- The order object the payment gateway answers with. -/
structure Order where
  id : String
  amount : JsNumber
  currency : String
  receipt : String
  deriving DecidableEq, Repr

/-- The persistent store together with the logs of the outgoing calls. -/
structure World where
  users : ObjectId → Option User
  courses : ObjectId → Option Course
  profiles : ObjectId → Option Profile
  progress : List CourseProgress
  /-- The `_id` the next created document receives. -/
  nextId : ObjectId
  /-- Mails sent so far, oldest first. -/
  outbox : List Mail
  /-- Arguments of the `instance.orders.create` calls so far, oldest first. -/
  orders : List OrderOptions

/-- The JSON answer of a controller: `res.status(status).json(...)`. -/
structure Response (α : Type) where
  status : Nat
  success : Bool
  message : Option String
  data : Option α
  deriving DecidableEq, Repr

/-! ## Database operations -/

/-- The `$addToSet` operator on an array: append unless already present. -/
def addToSet (xs : List ObjectId) (v : ObjectId) : List ObjectId :=
  if v ∈ xs then xs else xs ++ [v]

/-- The `$pull` operator on an array: remove every occurrence. -/
def pull (xs : List ObjectId) (v : ObjectId) : List ObjectId :=
  xs.filter (fun x => x ≠ v)

/-- An update document with one array operator on one named path. -/
inductive UpdateOp where
  | addToSet (path : String) (value : ObjectId)
  | pull (path : String) (value : ObjectId)
  deriving DecidableEq, Repr

/-- Apply an update operator to a course.  The only array path of ids a
course has is `studentsEnrolled`; an operator on any other path leaves the
stored fields as they are. -/
def Course.applyUpdate (op : UpdateOp) (c : Course) : Course :=
  match op with
  | .addToSet path v =>
    if path = "studentsEnrolled" then
      { c with studentsEnrolled := StudyNotion.addToSet c.studentsEnrolled v }
    else c
  | .pull path v =>
    if path = "studentsEnrolled" then
      { c with studentsEnrolled := StudyNotion.pull c.studentsEnrolled v }
    else c

/-- Apply an update operator to a user (array paths `courses` and
`courseProgress`). -/
def User.applyUpdate (op : UpdateOp) (u : User) : User :=
  match op with
  | .addToSet path v =>
    if path = "courses" then { u with courses := StudyNotion.addToSet u.courses v }
    else if path = "courseProgress" then
      { u with courseProgress := StudyNotion.addToSet u.courseProgress v }
    else u
  | .pull path v =>
    if path = "courses" then { u with courses := StudyNotion.pull u.courses v }
    else if path = "courseProgress" then
      { u with courseProgress := StudyNotion.pull u.courseProgress v }
    else u

/-- Replace the value stored under one key of a collection. -/
def setDoc {α : Type} (m : ObjectId → Option α) (id : ObjectId) (v : Option α) :
    ObjectId → Option α :=
  fun k => if k = id then v else m k

/-- `Course.findByIdAndUpdate(id, update, { new: true })`: the updated
document, or `none` (and no write) when no course has this id. -/
def Course.findByIdAndUpdate (id : ObjectId) (op : UpdateOp) (w : World) :
    Option Course × World :=
  match w.courses id with
  | none => (none, w)
  | some c =>
    let c1 := c.applyUpdate op
    (some c1, { w with courses := setDoc w.courses id (some c1) })

/-- `User.findByIdAndUpdate(id, update, { new: true })` for an update document
holding several array operators. -/
def User.findByIdAndUpdate (id : ObjectId) (ops : List UpdateOp) (w : World) :
    Option User × World :=
  match w.users id with
  | none => (none, w)
  | some u =>
    let u1 := ops.foldl (fun acc op => acc.applyUpdate op) u
    (some u1, { w with users := setDoc w.users id (some u1) })

/-- `CourseProgress.create({ courseID, userId, completedVideos: [] })`: the
new document receives a fresh `_id`. -/
def CourseProgress.create (courseID userId : ObjectId) (w : World) :
    CourseProgress × World :=
  let cp : CourseProgress :=
    { _id := w.nextId, courseID := courseID, userId := userId, completedVideos := [] }
  (cp, { w with progress := w.progress ++ [cp], nextId := w.nextId + 1 })

/-- `CourseProgress.findOne({ courseID, userId })`. -/
def CourseProgress.findOne (courseID userId : ObjectId) (w : World) :
    Option CourseProgress :=
  w.progress.find? (fun p => p.courseID = courseID ∧ p.userId = userId)

/-- `CourseProgress.deleteMany({ userId })`. -/
def CourseProgress.deleteMany (userId : ObjectId) (w : World) : World :=
  { w with progress := w.progress.filter (fun p => p.userId ≠ userId) }

/-- `mailSender(email, title, body)`. -/
def mailSender (email title : String) (body : List String) (w : World) : World :=
  { w with outbox := w.outbox ++ [{ email := email, title := title, body := body }] }

/-! ## Payments.js: enrollStudents -/

/-- Which of the awaited calls of one loop iteration of `enrollStudents`
throws.  A call that throws makes no write. -/
structure Faults where
  rosterUpdate : Bool
  progressCreate : Bool
  userUpdate : Bool
  mail : Bool
  deriving DecidableEq, Repr

/-- No call throws. -/
def Faults.none : Faults :=
  { rosterUpdate := false, progressCreate := false, userUpdate := false, mail := false }

/-- The body of the `try` block of `enrollStudents` for one course id.
`Except.ok ()` covers both normal completion and `continue`. -/
def enrollBody (f : Faults) (courseId userId : ObjectId) (w : World) :
    Except String Unit × World :=
  if f.rosterUpdate then (.error "Course.findByIdAndUpdate failed", w)
  else
    match Course.findByIdAndUpdate courseId (.addToSet "studentsEnrolled" userId) w with
    | (none, w1) => (.ok (), w1)
    | (some enrolledCourse, w1) =>
      if f.progressCreate then (.error "CourseProgress.create failed", w1)
      else
        match CourseProgress.create courseId userId w1 with
        | (courseProgress, w2) =>
          if f.userUpdate then (.error "User.findByIdAndUpdate failed", w2)
          else
            match User.findByIdAndUpdate userId
                [.addToSet "courses" courseId,
                 .addToSet "courseProgress" courseProgress._id] w2 with
            | (none, w3) => (.ok (), w3)
            | (some enrolledStudent, w3) =>
              if f.mail then (.error "mailSender failed", w3)
              else
                (.ok (),
                  mailSender enrolledStudent.email
                    ("Successfully Enrolled into " ++ enrolledCourse.courseName)
                    [enrolledCourse.courseName,
                     enrolledStudent.firstName ++ " " ++ enrolledStudent.lastName] w3)

/-- The function `enrollStudents(courses, userId)`: the `for` loop over the
course ids, each iteration inside its own `try`/`catch`.  `faults i` says
which calls throw in iteration `i`. -/
def enrollStudents (faults : Nat → Faults) (courses : List ObjectId) (userId : ObjectId)
    (w : World) : Except String Unit × World :=
  match courses with
  | [] => (.ok (), w)
  | courseId :: rest =>
    match enrollBody (faults 0) courseId userId w with
    | (.ok _, w1) => enrollStudents (fun i => faults (i + 1)) rest userId w1
    | (.error _, w1) => enrollStudents (fun i => faults (i + 1)) rest userId w1

/-! ## Payments.js: verifyPayment -/

/-- The parts of the request `verifyPayment` reads.  `none` is an absent
(undefined or null) field. -/
structure VerifyRequest where
  razorpay_order_id : Option String
  razorpay_payment_id : Option String
  razorpay_signature : Option String
  courses : Option (List ObjectId)
  userId : Option ObjectId

/-- The controller `verifyPayment`.  `hmac key message` is
`crypto.createHmac("sha256", key).update(message).digest("hex")` and `secret`
is `process.env.RAZORPAY_KEY_SECRET`.  A string field is falsy when it is
absent or empty; a present `courses` value and a present user id are truthy. -/
def verifyPayment (hmac : String → String → String) (secret : String)
    (faults : Nat → Faults) (req : VerifyRequest) (w : World) : Response Unit × World :=
  match req.razorpay_order_id, req.razorpay_payment_id, req.razorpay_signature,
      req.courses, req.userId with
  | some orderId, some paymentId, some signature, some courses, some userId =>
    if orderId = "" ∨ paymentId = "" ∨ signature = "" then
      ({ status := 400, success := false, message := some "Payment verification failed",
         data := none }, w)
    else
      let body := orderId ++ "|" ++ paymentId
      let expectedSignature := hmac secret body
      if expectedSignature ≠ signature then
        ({ status := 400, success := false, message := some "Invalid signature",
           data := none }, w)
      else
        match enrollStudents faults courses userId w with
        | (.ok _, w1) =>
          ({ status := 200, success := true, message := some "Payment Verified",
             data := none }, w1)
        | (.error e, w1) =>
          ({ status := 500, success := false, message := some e, data := none }, w1)
  | _, _, _, _, _ =>
    ({ status := 400, success := false, message := some "Payment verification failed",
       data := none }, w)

/-! ## Payments.js: capturePayment -/

/-- The number of halvings that bring `m` below `2 ^ 53`, searched for at
most `fuel` steps. -/
def doubleExponent : Nat → Nat → Nat
  | 0, _ => 0
  | fuel + 1, m => if m < 2 ^ 53 then 0 else doubleExponent fuel (m / 2) + 1

/-- The bound `2 ^ 1024` from which a magnitude is an infinity. -/
def doubleOverflow : Nat := 2 ^ 256 * 2 ^ 256 * 2 ^ 256 * 2 ^ 256

/-- IEEE-754 binary64 rounding of an exact integer result (round to nearest,
ties to even): an integer of magnitude below `2 ^ 53` is kept, a larger one is
rounded to 53 significant bits, and a result of magnitude `2 ^ 1024` or more
is an infinity. -/
def roundToDouble (n : Int) : JsNumber :=
  let m := n.natAbs
  if m < 2 ^ 53 then .finite n
  else if doubleOverflow ≤ m then .infinity (decide (n < 0))
  else
    let e := doubleExponent 1024 m
    let q := m / 2 ^ e
    let r := m % 2 ^ e
    let half := 2 ^ (e - 1)
    let q1 := if half < r ∨ (r = half ∧ q % 2 = 1) then q + 1 else q
    if doubleOverflow ≤ q1 * 2 ^ e then .infinity (decide (n < 0))
    else if n < 0 then .finite (-((q1 * 2 ^ e : Nat) : Int))
    else .finite ((q1 * 2 ^ e : Nat) : Int)

/-- The expression `total_amount + course.price` for an integer price. -/
def JsNumber.add (a : JsNumber) (p : Int) : JsNumber :=
  match a with
  | .finite x => roundToDouble (x + p)
  | .infinity negative => .infinity negative

/-- The expression `total_amount * 100`. -/
def JsNumber.times100 (a : JsNumber) : JsNumber :=
  match a with
  | .finite x => roundToDouble (x * 100)
  | .infinity negative => .infinity negative

/-- An integer on which double arithmetic is exact: magnitude at most
`Number.MAX_SAFE_INTEGER = 2 ^ 53 - 1`. -/
def safeInteger (x : Int) : Prop := x.natAbs < 2 ^ 53

/-- The parts of the request `capturePayment` reads.  `courses` is `none`
when the body field is absent or is not an array.  `userId` is
`Except.error e` when `new mongoose.Types.ObjectId(req.user.id)` throws an
error with message `e`. -/
structure CaptureRequest where
  courses : Option (List ObjectId)
  userId : Except String ObjectId

/-- The `for (const course_id of courses)` loop of `capturePayment`:
`Except.error r` is the answer of an early `return res...` or of the `catch`
block after a throw, and `Except.ok t` is the value of `total_amount` once the
loop has run through.  `throws i` is the message of the error
`Course.findById` throws in iteration `i` (a malformed id, a database
failure), `none` when it does not throw. -/
def captureLoop (w : World) (userId : Except String ObjectId)
    (throws : Nat → Option String) :
    List ObjectId → JsNumber → Except (Response Order) JsNumber
  | [], total_amount => .ok total_amount
  | course_id :: rest, total_amount =>
    match throws 0 with
    | some e => .error { status := 500, success := false, message := some e, data := none }
    | none =>
      match w.courses course_id with
      | none =>
        .error { status := 404, success := false,
                 message := some ("Course not found: " ++ toString course_id),
                 data := none }
      | some course =>
        match userId with
        | .error e =>
          .error { status := 500, success := false, message := some e, data := none }
        | .ok uid =>
          if course.studentsEnrolled.any (fun id => id = uid) then
            .error { status := 400, success := false,
                     message := some "Already Enrolled in a course", data := none }
          else if course.price = none ∨ course.price = some 0 then
            .error { status := 400, success := false,
                     message := some "Course has no price", data := none }
          else
            captureLoop w userId (fun i => throws (i + 1)) rest
              (total_amount.add (course.price.getD 0))

/-- The controller `capturePayment`.  `gateway` is `instance.orders.create`
(`Except.error` when it throws), `now` is `Date.now()` and `throws` says which
course lookups throw. -/
def capturePayment (gateway : OrderOptions → Except String Order) (now : Nat)
    (throws : Nat → Option String) (req : CaptureRequest) (w : World) :
    Response Order × World :=
  match req.courses with
  | none =>
    ({ status := 400, success := false, message := some "Please provide Course IDs",
       data := none }, w)
  | some courses =>
    if courses.length = 0 then
      ({ status := 400, success := false, message := some "Please provide Course IDs",
         data := none }, w)
    else
      match captureLoop w req.userId throws courses (.finite 0) with
      | .error r => (r, w)
      | .ok total_amount =>
        let options : OrderOptions :=
          { amount := total_amount.times100, currency := "INR",
            receipt := "receipt_" ++ toString now,
            notesUserId := req.userId.toOption, notesCourses := courses }
        let w1 := { w with orders := w.orders ++ [options] }
        match gateway options with
        | .ok paymentResponse =>
          ({ status := 200, success := true, message := none,
             data := some paymentResponse }, w1)
        | .error e =>
          ({ status := 500, success := false, message := some e, data := none }, w1)

/-- The sum of the stored prices of the listed courses (a course that is
missing or has no price counts 0). -/
def totalPrice (w : World) (courses : List ObjectId) : Int :=
  (courses.map (fun c => ((w.courses c).bind (fun course => course.price)).getD 0)).sum

/-! ## Profile.js: updateProfile -/

/-- The body of an `updateProfile` request; `none` is an absent field. -/
structure ProfileBody where
  firstName : Option String
  lastName : Option String
  dateOfBirth : Option String
  about : Option String
  contactNumber : Option String
  gender : Option String

/-- The controller `updateProfile`; the data of the answer is the user with
`additionalDetails` populated. -/
def updateProfile (body : ProfileBody) (id : ObjectId) (w : World) :
    Response (User × Option Profile) × World :=
  let firstName := body.firstName.getD ""
  let lastName := body.lastName.getD ""
  let dateOfBirth := body.dateOfBirth.getD ""
  let about := body.about.getD ""
  let contactNumber := body.contactNumber.getD ""
  let gender := body.gender.getD ""
  match w.users id with
  | none =>
    ({ status := 404, success := false, message := some "User not found", data := none }, w)
  | some userDetails =>
    match w.profiles userDetails.additionalDetails with
    | none =>
      ({ status := 404, success := false, message := some "Profile not found",
         data := none }, w)
    | some profile =>
      let userDetails1 := { userDetails with firstName := firstName, lastName := lastName }
      let w1 := { w with users := setDoc w.users id (some userDetails1) }
      let profile1 :=
        { profile with dateOfBirth := dateOfBirth, about := about,
                       contactNumber := contactNumber, gender := gender }
      let w2 :=
        { w1 with profiles := setDoc w1.profiles userDetails.additionalDetails (some profile1) }
      let updatedUserDetails :=
        (w2.users id).map (fun u => (u, w2.profiles u.additionalDetails))
      ({ status := 200, success := true, message := some "Profile updated successfully",
         data := updatedUserDetails }, w2)

/-! ## Profile.js: deleteAccount -/

/-- The controller `deleteAccount`. -/
def deleteAccount (id : ObjectId) (w : World) : Response Unit × World :=
  match w.users id with
  | none =>
    ({ status := 404, success := false, message := some "User not found", data := none }, w)
  | some user =>
    let w1 := { w with profiles := setDoc w.profiles user.additionalDetails none }
    let w2 := user.courses.foldl
      (fun acc courseId =>
        (Course.findByIdAndUpdate courseId (.pull "studentsEnroled" id) acc).2) w1
    let w3 := { w2 with users := setDoc w2.users id none }
    let w4 := CourseProgress.deleteMany id w3
    ({ status := 200, success := true, message := some "User deleted successfully",
       data := none }, w4)

/-! ## Profile.js: getEnrolledCourses -/

/-- One entry of the answer of `getEnrolledCourses`: the populated course and
the two fields the controller adds.  `totalDuration` is the number of seconds
handed to `convertSecondsToDuration`, `none` while the field is not set. -/
structure EnrolledCourse where
  course : Course
  totalDuration : Option Nat
  progressPercentage : ℚ
  deriving DecidableEq

/-- The inner `for (let j ...)` loop over the sections of one course; the
state is `(totalDurationInSeconds, totalDuration, SubsectionLength)`. -/
def sectionsLoop : List Section → Nat × Option Nat × Nat → Nat × Option Nat × Nat
  | [], acc => acc
  | s :: rest, (totalDurationInSeconds, _, subsectionLength) =>
    let secs := totalDurationInSeconds +
      s.subSection.foldl (fun acc curr => acc + curr.timeDuration) 0
    sectionsLoop rest (secs, some secs, subsectionLength + s.subSection.length)

/-- The `progressPercentage` assigned at the end of the outer loop body.
`roundedPercent count length` is the double
`Math.round((count / length) * 100 * multiplier) / multiplier` of the `else`
branch, whose floating-point arithmetic is not modelled. -/
def progressPercentage (roundedPercent : Nat → Nat → ℚ)
    (courseProgressCount subsectionLength : Nat) : ℚ :=
  if subsectionLength = 0 then 100
  else roundedPercent courseProgressCount subsectionLength

/-- The body of the outer `for (let i ...)` loop for one populated course. -/
def enrolledCourse (roundedPercent : Nat → Nat → ℚ) (userId : ObjectId) (w : World)
    (course : Course) : EnrolledCourse :=
  let st := sectionsLoop course.courseContent (0, none, 0)
  let courseProgressCount :=
    match CourseProgress.findOne course._id userId w with
    | some cp => cp.completedVideos.length
    | none => 0
  { course := course, totalDuration := st.2.1,
    progressPercentage := progressPercentage roundedPercent courseProgressCount st.2.2 }

/-- The controller `getEnrolledCourses`.  Populating `courses` keeps the
referenced courses that exist. -/
def getEnrolledCourses (roundedPercent : Nat → Nat → ℚ) (userId : ObjectId) (w : World) :
    Response (List EnrolledCourse) :=
  match w.users userId with
  | none =>
    { status := 404, success := false,
      message := some ("Could not find user with id: " ++ toString userId), data := none }
  | some userDetails =>
    let courses := userDetails.courses.filterMap w.courses
    { status := 200, success := true, message := none,
      data := some (courses.map (enrolledCourse roundedPercent userId w)) }

/-- The number of subsections a course holds over all its sections. -/
def Course.subsectionCount (c : Course) : Nat :=
  (c.courseContent.map (fun s => s.subSection.length)).sum


/-- The data-model invariant on rosters: `studentsEnrolled` holds no user
twice. -/
def World.RostersAreSets (w : World) : Prop :=
  ∀ k c, w.courses k = some c → c.studentsEnrolled.Nodup

/-! ## Example data -/

/-- The fault oracle under which no call throws. -/
def noFaults : Nat → Faults := fun _ => Faults.none

/-- A fault oracle under which everything after the roster update throws. -/
def laterFaults : Nat → Faults := fun _ =>
  { rosterUpdate := false, progressCreate := true, userUpdate := true, mail := true }

/-- A stand-in for the keyed hash, used for the examples only. -/
def exampleHmac : String → String → String :=
  fun key message => "mac(" ++ key ++ ":" ++ message ++ ")"

/-- A gateway that accepts every order, used for the examples only. -/
def exampleGateway : OrderOptions → Except String Order :=
  fun o => .ok { id := "order_1", amount := o.amount, currency := o.currency,
                 receipt := o.receipt }

/-- An example user without enrollments; the profile is document 5. -/
def exampleUser : User :=
  { _id := 1, email := "ada@example.org", firstName := "Ada", lastName := "Lovelace",
    courses := [], courseProgress := [], additionalDetails := 5 }

/-- The profile of `exampleUser`. -/
def exampleProfile : Profile :=
  { _id := 5, dateOfBirth := "1815-12-10", about := "analyst",
    contactNumber := "5550100", gender := "female" }

/-- A course priced 500 without sections. -/
def course10 : Course :=
  { _id := 10, courseName := "Algebra", price := some 500, studentsEnrolled := [],
    courseContent := [] }

/-- A course priced 300 with one section of two lectures. -/
def course11 : Course :=
  { _id := 11, courseName := "Logic", price := some 300, studentsEnrolled := [],
    courseContent := [{ _id := 20, subSection := [{ _id := 30, timeDuration := 60 },
                                                   { _id := 31, timeDuration := 90 }] }] }

/-- A course whose price is set to 0. -/
def course12 : Course :=
  { _id := 12, courseName := "Taster", price := some 0, studentsEnrolled := [],
    courseContent := [] }

/-- A course priced `2 ^ 53`. -/
def course14 : Course :=
  { _id := 14, courseName := "Estate", price := some 9007199254740992,
    studentsEnrolled := [], courseContent := [] }

/-- A course priced 1. -/
def course15 : Course :=
  { _id := 15, courseName := "Leaflet", price := some 1, studentsEnrolled := [],
    courseContent := [] }

/-- A lookup oracle under which no `Course.findById` throws. -/
def noThrows : Nat → Option String := fun _ => none

/-- A stand-in for the rounded floating-point percentage, used for the
examples only. -/
def examplePercent : Nat → Nat → ℚ := fun _ _ => 0

/-- A course that already has user 1 in its roster. -/
def course13 : Course :=
  { _id := 13, courseName := "Sets", price := some 200, studentsEnrolled := [1],
    courseContent := [] }

/-- A store holding `exampleUser`, its profile and the courses 10 to 15. -/
def exampleWorld : World :=
  { users := fun k => if k = 1 then some exampleUser else none
    courses := fun k =>
      if k = 10 then some course10 else if k = 11 then some course11
      else if k = 12 then some course12 else if k = 13 then some course13
      else if k = 14 then some course14 else if k = 15 then some course15 else none
    profiles := fun k => if k = 5 then some exampleProfile else none
    progress := []
    nextId := 100
    outbox := []
    orders := [] }

/-- The store reached from `exampleWorld` by enrolling user 1 in the courses
10 and 11 with every call succeeding. -/
def enrolledWorld : World :=
  (enrollStudents noFaults [10, 11] 1 exampleWorld).2

/-- The store `enrolledWorld` after user 1 has completed two videos in
course 10, a course without sections. -/
def watchedWorld : World :=
  { enrolledWorld with
    progress :=
      [{ _id := 100, courseID := 10, userId := 1, completedVideos := [30, 31] },
       { _id := 101, courseID := 11, userId := 1, completedVideos := [30] }] }

/-- A request body that carries only `about`. -/
def aboutOnly : ProfileBody :=
  { firstName := none, lastName := none, dateOfBirth := none, about := some "x",
    contactNumber := none, gender := none }

/-! ## Enrollment: auxiliary facts -/

theorem enrollBody_courses (f : Faults) (c u : ObjectId) (w : World) :
    (enrollBody f c u w).2.courses =
      if f.rosterUpdate then w.courses
      else (Course.findByIdAndUpdate c (.addToSet "studentsEnrolled" u) w).2.courses := by
  rcases f with ⟨a, b, c', d⟩
  cases a <;> cases b <;> cases c' <;> cases d <;> cases hc : w.courses c <;>
    cases hu : w.users u <;>
    simp [enrollBody, Course.findByIdAndUpdate, CourseProgress.create,
      User.findByIdAndUpdate, mailSender, hc, hu]

theorem findByIdAndUpdate_courses (c u k : ObjectId) (w : World) :
    (Course.findByIdAndUpdate c (.addToSet "studentsEnrolled" u) w).2.courses k =
      if k = c then
        (w.courses c).map
          (fun x => { x with studentsEnrolled := addToSet x.studentsEnrolled u })
      else w.courses k := by
  unfold Course.findByIdAndUpdate
  cases hc : w.courses c with
  | none => by_cases hk : k = c <;> simp [hk, hc]
  | some x => by_cases hk : k = c <;> simp [hk, setDoc, Course.applyUpdate]

theorem mem_addToSet_self (xs : List ObjectId) (v : ObjectId) : v ∈ addToSet xs v := by
  unfold addToSet
  split <;> simp_all

theorem mem_addToSet_of_mem {xs : List ObjectId} {a : ObjectId} (v : ObjectId)
    (h : a ∈ xs) : a ∈ addToSet xs v := by
  unfold addToSet
  split <;> simp_all

theorem addToSet_of_mem {xs : List ObjectId} {v : ObjectId} (h : v ∈ xs) :
    addToSet xs v = xs := by
  simp [addToSet, h]

theorem count_addToSet_self (xs : List ObjectId) (v : ObjectId) (h : xs.count v ≤ 1) :
    (addToSet xs v).count v = 1 := by
  unfold addToSet
  split
  · rename_i hm
    have := List.count_pos_iff.mpr hm
    omega
  · rename_i hm
    simp [List.count_eq_zero_of_not_mem hm]

/-- One loop iteration keeps every course and only ever adds to its roster. -/
theorem enrollBody_roster_mono (f : Faults) (c u k : ObjectId) (w : World) (x : Course)
    (hx : w.courses k = some x) :
    ∃ y, (enrollBody f c u w).2.courses k = some y ∧
      ∀ a, a ∈ x.studentsEnrolled → a ∈ y.studentsEnrolled := by
  rw [enrollBody_courses]
  split
  · exact ⟨x, hx, fun _ h => h⟩
  · rw [findByIdAndUpdate_courses]
    by_cases hk : k = c
    · subst hk
      simp only [if_true, hx, Option.map_some']
      exact ⟨_, rfl, fun a h => mem_addToSet_of_mem u h⟩
    · simp only [hk, if_false]
      exact ⟨x, hx, fun _ h => h⟩

/-- An iteration whose roster update does not throw puts the user in the
roster of its course, when that course exists. -/
theorem enrollBody_enrolls (f : Faults) (c u : ObjectId) (w : World) (x : Course)
    (hx : w.courses c = some x) (hf : f.rosterUpdate = false) :
    ∃ y, (enrollBody f c u w).2.courses c = some y ∧ u ∈ y.studentsEnrolled := by
  rw [enrollBody_courses]
  simp only [hf, Bool.false_eq_true, if_false]
  rw [findByIdAndUpdate_courses]
  simp only [if_true, hx, Option.map_some']
  exact ⟨_, rfl, mem_addToSet_self _ _⟩

theorem enrollStudents_cons (faults : Nat → Faults) (c : ObjectId) (rest : List ObjectId)
    (u : ObjectId) (w : World) :
    enrollStudents faults (c :: rest) u w =
      enrollStudents (fun i => faults (i + 1)) rest u (enrollBody (faults 0) c u w).2 := by
  rw [enrollStudents]
  rcases h : enrollBody (faults 0) c u w with ⟨r, w1⟩
  cases r <;> rfl

theorem enrollStudents_ok (faults : Nat → Faults) (courses : List ObjectId) (u : ObjectId)
    (w : World) : (enrollStudents faults courses u w).1 = .ok () := by
  induction courses generalizing faults w with
  | nil => rfl
  | cons c rest ih => rw [enrollStudents_cons]; exact ih _ _

theorem enrollStudents_roster_mono (faults : Nat → Faults) (courses : List ObjectId)
    (u k : ObjectId) (w : World) (x : Course) (hx : w.courses k = some x) :
    ∃ y, (enrollStudents faults courses u w).2.courses k = some y ∧
      ∀ a, a ∈ x.studentsEnrolled → a ∈ y.studentsEnrolled := by
  induction courses generalizing faults w x with
  | nil => exact ⟨x, hx, fun _ h => h⟩
  | cons c rest ih =>
    rw [enrollStudents_cons]
    obtain ⟨y, hy, hsub⟩ := enrollBody_roster_mono (faults 0) c u k w x hx
    obtain ⟨z, hz, hsub2⟩ := ih (fun i => faults (i + 1)) _ y hy
    exact ⟨z, hz, fun a h => hsub2 a (hsub a h)⟩

theorem nodup_addToSet {xs : List ObjectId} (v : ObjectId) (h : xs.Nodup) :
    (addToSet xs v).Nodup := by
  unfold addToSet
  split
  · exact h
  · rename_i hm
    exact List.Nodup.append h (List.nodup_singleton v) (by simpa using hm)

/-- Rosters that are sets stay sets through `enrollStudents`, whatever calls
throw: `$addToSet` is its only write to a roster. -/
theorem enrollStudents_rosters_sets (faults : Nat → Faults) (courses : List ObjectId)
    (u : ObjectId) (w : World) (h : w.RostersAreSets) :
    (enrollStudents faults courses u w).2.RostersAreSets := by
  induction courses generalizing faults w with
  | nil => exact h
  | cons c rest ih =>
    rw [enrollStudents_cons]
    apply ih
    intro k x hx
    rw [enrollBody_courses] at hx
    split at hx
    · exact h k x hx
    · rw [findByIdAndUpdate_courses] at hx
      split at hx
      · cases hc : w.courses c with
        | none => simp [hc] at hx
        | some y =>
          simp only [hc, Option.map_some', Option.some.injEq] at hx
          subst hx
          exact nodup_addToSet u (h c y hc)
      · exact h k x hx

theorem enrollStudents_enrolls (faults : Nat → Faults) (courses : List ObjectId)
    (u : ObjectId) (w : World) (i : Nat) (hi : i < courses.length)
    (hx : (w.courses (courses.get ⟨i, hi⟩)).isSome = true)
    (hf : (faults i).rosterUpdate = false) :
    ∃ y, (enrollStudents faults courses u w).2.courses (courses.get ⟨i, hi⟩) = some y ∧
      u ∈ y.studentsEnrolled := by
  induction courses generalizing faults w i with
  | nil => simp at hi
  | cons c rest ih =>
    rw [enrollStudents_cons]
    cases i with
    | zero =>
      obtain ⟨x, hx1⟩ := Option.isSome_iff_exists.mp hx
      simp only [List.get_eq_getElem, List.getElem_cons_zero] at hx1 ⊢
      obtain ⟨y, hy, hmem⟩ := enrollBody_enrolls (faults 0) c u w x hx1 hf
      obtain ⟨z, hz, hsub⟩ :=
        enrollStudents_roster_mono (fun i => faults (i + 1)) rest u c _ y hy
      exact ⟨z, hz, hsub u hmem⟩
    | succ j =>
      have hj : j < rest.length := by simpa using hi
      obtain ⟨x, hx1⟩ := Option.isSome_iff_exists.mp hx
      simp only [List.get_eq_getElem, List.getElem_cons_succ] at hx1 ⊢
      obtain ⟨y, hy, _⟩ := enrollBody_roster_mono (faults 0) c u rest[j] w x hx1
      have := ih (fun i => faults (i + 1)) (enrollBody (faults 0) c u w).2 j hj
        (by simp [hy]) hf
      simpa using this

theorem enrollStudents_single (faults : Nat → Faults) (c u : ObjectId) (w : World) :
    (enrollStudents faults [c] u w).2 = (enrollBody (faults 0) c u w).2 := by
  rw [enrollStudents_cons]
  rfl

/-- The store after one iteration in which no call throws, for an existing
course and an existing user. -/
theorem enrollBody_none (c u : ObjectId) (w : World) (x : Course) (usr : User)
    (hc : w.courses c = some x) (hu : w.users u = some usr) :
    (enrollBody Faults.none c u w).2 =
      { users := setDoc w.users u (some { usr with
                  courses := addToSet usr.courses c,
                  courseProgress := addToSet usr.courseProgress w.nextId })
        courses := setDoc w.courses c (some { x with
                  studentsEnrolled := addToSet x.studentsEnrolled u })
        profiles := w.profiles
        progress := w.progress ++
          [{ _id := w.nextId, courseID := c, userId := u, completedVideos := [] }]
        nextId := w.nextId + 1
        outbox := w.outbox ++
          [{ email := usr.email, title := "Successfully Enrolled into " ++ x.courseName,
             body := [x.courseName, usr.firstName ++ " " ++ usr.lastName] }]
        orders := w.orders } := by
  simp [enrollBody, Faults.none, Course.findByIdAndUpdate, CourseProgress.create,
    User.findByIdAndUpdate, mailSender, hc, hu, Course.applyUpdate, User.applyUpdate]

/-- C5: for an existing course whose roster holds the user at most once and a
first run whose roster update does not throw, a second run of
`enrollStudents` for the same user and course leaves the roster equal to the
roster after the first run, and the user occurs in it exactly once; the other
calls of either run may throw or not. -/
theorem enrollStudents_roster_idempotent (f1 f2 : Nat → Faults) (courseId userId : ObjectId)
    (w : World) (course : Course)
    (hc : w.courses courseId = some course)
    (hok : (f1 0).rosterUpdate = false)
    (hset : course.studentsEnrolled.count userId ≤ 1) :
    ∃ roster : List ObjectId,
      ((enrollStudents f1 [courseId] userId w).2.courses courseId).map
          (fun c => c.studentsEnrolled) = some roster ∧
      ((enrollStudents f2 [courseId] userId
          (enrollStudents f1 [courseId] userId w).2).2.courses courseId).map
          (fun c => c.studentsEnrolled) = some roster ∧
      roster.count userId = 1 := by
  refine ⟨addToSet course.studentsEnrolled userId, ?_, ?_, count_addToSet_self _ _ hset⟩
  · rw [enrollStudents_single, enrollBody_courses]
    simp only [hok, Bool.false_eq_true, if_false]
    rw [findByIdAndUpdate_courses]
    simp [hc]
  · have h1 : (enrollStudents f1 [courseId] userId w).2.courses courseId =
        some { course with studentsEnrolled := addToSet course.studentsEnrolled userId } := by
      rw [enrollStudents_single, enrollBody_courses]
      simp only [hok, Bool.false_eq_true, if_false]
      rw [findByIdAndUpdate_courses]
      simp [hc]
    rw [enrollStudents_single, enrollBody_courses]
    split
    · simp [h1]
    · rw [findByIdAndUpdate_courses]
      simp [h1, addToSet_of_mem (mem_addToSet_self course.studentsEnrolled userId)]

/-- C5, instance: user 1 enrolled twice in course 10 while every call after
the roster update throws. -/
theorem enrollStudents_roster_idempotent_witness :
    ∃ roster : List ObjectId,
      ((enrollStudents laterFaults [10] 1 exampleWorld).2.courses 10).map
          (fun c => c.studentsEnrolled) = some roster ∧
      ((enrollStudents noFaults [10] 1
          (enrollStudents laterFaults [10] 1 exampleWorld).2).2.courses 10).map
          (fun c => c.studentsEnrolled) = some roster ∧
      roster.count 1 = 1 :=
  enrollStudents_roster_idempotent laterFaults noFaults 10 1 exampleWorld course10
    (by decide) (by decide) (by decide)

theorem addToSet_fresh (xs : List ObjectId) (v : ObjectId) (h : v ∉ xs) :
    addToSet xs v = xs ++ [v] := by
  simp [addToSet, h]

/-- The documents touched by one iteration in which no call throws. -/
theorem enrollBody_none_fields (c u : ObjectId) (w : World) (x : Course) (usr : User)
    (hc : w.courses c = some x) (hu : w.users u = some usr) :
    (enrollBody Faults.none c u w).2.courses c =
        some { x with studentsEnrolled := addToSet x.studentsEnrolled u } ∧
    (enrollBody Faults.none c u w).2.users u =
        some { usr with courses := addToSet usr.courses c,
                        courseProgress := addToSet usr.courseProgress w.nextId } ∧
    (enrollBody Faults.none c u w).2.progress =
        w.progress ++
          [{ _id := w.nextId, courseID := c, userId := u, completedVideos := [] }] ∧
    (enrollBody Faults.none c u w).2.nextId = w.nextId + 1 := by
  rw [enrollBody_none c u w x usr hc hu]
  simp [setDoc]

/-- C9: for an existing user and an existing course, two runs of
`enrollStudents` in which no call throws append two `CourseProgress` records
with different ids for the (course, user) pair and two references to them to
the user's `courseProgress` list, while the course is counted once in the
user's `courses` list and the user once in the roster (both lists holding the
entry at most once beforehand, and the stored progress references being older
than the next fresh id). -/
theorem enrollStudents_twice_progress (courseId userId : ObjectId) (w : World)
    (course : Course) (user : User)
    (hc : w.courses courseId = some course) (hu : w.users userId = some user)
    (hfresh : ∀ id ∈ user.courseProgress, id < w.nextId)
    (hcourses : user.courses.count courseId ≤ 1)
    (hroster : course.studentsEnrolled.count userId ≤ 1) :
    ∃ (course2 : Course) (user2 : User),
      (enrollStudents noFaults [courseId] userId
          (enrollStudents noFaults [courseId] userId w).2).2.courses courseId = some course2 ∧
      (enrollStudents noFaults [courseId] userId
          (enrollStudents noFaults [courseId] userId w).2).2.users userId = some user2 ∧
      (enrollStudents noFaults [courseId] userId
          (enrollStudents noFaults [courseId] userId w).2).2.progress =
        w.progress ++
          [{ _id := w.nextId, courseID := courseId, userId := userId, completedVideos := [] },
           { _id := w.nextId + 1, courseID := courseId, userId := userId,
             completedVideos := [] }] ∧
      w.nextId ≠ w.nextId + 1 ∧
      user2.courseProgress = user.courseProgress ++ [w.nextId, w.nextId + 1] ∧
      user2.courses.count courseId = 1 ∧
      course2.studentsEnrolled.count userId = 1 := by
  obtain ⟨h1c, h1u, h1p, h1n⟩ := enrollBody_none_fields courseId userId w course user hc hu
  obtain ⟨h2c, h2u, h2p, _⟩ := enrollBody_none_fields courseId userId _ _ _ h1c h1u
  have hn1 : w.nextId ∉ user.courseProgress := fun h =>
    absurd (hfresh _ h) (Nat.lt_irrefl _)
  have hn2 : w.nextId + 1 ∉ user.courseProgress ++ [w.nextId] := by
    intro h
    rcases List.mem_append.mp h with h | h
    · exact absurd (Nat.lt_trans (Nat.lt_succ_self _) (hfresh _ h)) (Nat.lt_irrefl _)
    · exact absurd (List.mem_singleton.mp h) (Nat.succ_ne_self _)
  have hnf : noFaults 0 = Faults.none := rfl
  rw [enrollStudents_single, enrollStudents_single, hnf]
  refine ⟨_, _, h2c, h2u, ?_, (Nat.succ_ne_self _).symm, ?_, ?_, ?_⟩
  · rw [h2p, h1p, h1n]
    simp
  · show addToSet (addToSet user.courseProgress w.nextId) _ = _
    rw [h1n, addToSet_fresh _ _ hn1, addToSet_fresh _ _ hn2]
    simp
  · show (addToSet (addToSet user.courses courseId) courseId).count courseId = 1
    rw [addToSet_of_mem (mem_addToSet_self user.courses courseId)]
    exact count_addToSet_self _ _ hcourses
  · show (addToSet (addToSet course.studentsEnrolled userId) userId).count userId = 1
    rw [addToSet_of_mem (mem_addToSet_self course.studentsEnrolled userId)]
    exact count_addToSet_self _ _ hroster

/-- C9, instance: user 1 enrolled twice in course 10 of the example store. -/
theorem enrollStudents_twice_progress_witness :
    ∃ (course2 : Course) (user2 : User),
      (enrollStudents noFaults [10] 1
          (enrollStudents noFaults [10] 1 exampleWorld).2).2.courses 10 = some course2 ∧
      (enrollStudents noFaults [10] 1
          (enrollStudents noFaults [10] 1 exampleWorld).2).2.users 1 = some user2 ∧
      (enrollStudents noFaults [10] 1
          (enrollStudents noFaults [10] 1 exampleWorld).2).2.progress =
        exampleWorld.progress ++
          [{ _id := exampleWorld.nextId, courseID := 10, userId := 1, completedVideos := [] },
           { _id := exampleWorld.nextId + 1, courseID := 10, userId := 1,
             completedVideos := [] }] ∧
      exampleWorld.nextId ≠ exampleWorld.nextId + 1 ∧
      user2.courseProgress = exampleUser.courseProgress ++
        [exampleWorld.nextId, exampleWorld.nextId + 1] ∧
      user2.courses.count 10 = 1 ∧
      course2.studentsEnrolled.count 1 = 1 :=
  enrollStudents_twice_progress 10 1 exampleWorld course10 exampleUser
    (by decide) (by decide) (by decide) (by decide) (by decide)

theorem enrollStudents_best_effort_aux (faults : Nat → Faults) (courses : List ObjectId)
    (userId : ObjectId) (w : World) :
    ∀ (hmac : String → String → String) (secret orderId paymentId signature : String),
      orderId ≠ "" → paymentId ≠ "" → signature ≠ "" →
      hmac secret (orderId ++ "|" ++ paymentId) = signature →
      verifyPayment hmac secret faults
          { razorpay_order_id := some orderId, razorpay_payment_id := some paymentId,
            razorpay_signature := some signature, courses := some courses,
            userId := some userId } w =
        ({ status := 200, success := true, message := some "Payment Verified",
           data := none }, (enrollStudents faults courses userId w).2) := by
  intro hmac secret orderId paymentId signature ho hp hs hsig
  have hok := enrollStudents_ok faults courses userId w
  rcases hres : enrollStudents faults courses userId w with ⟨r, w1⟩
  rw [hres] at hok
  simp only at hok
  subst hok
  simp [verifyPayment, ho, hp, hs, hsig, hres]

/-- C6: `enrollStudents` always completes without an error, whatever calls
throw; every listed course that exists and whose roster update does not throw
has the user in its roster afterwards, whatever happened in the other
iterations; and `verifyPayment` on a request that passes the field check and
carries the matching signature answers 200 "Payment Verified" with the store
`enrollStudents` leaves. -/
theorem enrollStudents_best_effort (faults : Nat → Faults) (courses : List ObjectId)
    (userId : ObjectId) (w : World) :
    (enrollStudents faults courses userId w).1 = .ok () ∧
    (∀ (i : Nat) (hi : i < courses.length),
      (w.courses (courses.get ⟨i, hi⟩)).isSome = true →
      (faults i).rosterUpdate = false →
      ∃ y, (enrollStudents faults courses userId w).2.courses (courses.get ⟨i, hi⟩) = some y ∧
        userId ∈ y.studentsEnrolled) ∧
    (∀ (hmac : String → String → String) (secret orderId paymentId signature : String),
      orderId ≠ "" → paymentId ≠ "" → signature ≠ "" →
      hmac secret (orderId ++ "|" ++ paymentId) = signature →
      verifyPayment hmac secret faults
          { razorpay_order_id := some orderId, razorpay_payment_id := some paymentId,
            razorpay_signature := some signature, courses := some courses,
            userId := some userId } w =
        ({ status := 200, success := true, message := some "Payment Verified",
           data := none }, (enrollStudents faults courses userId w).2)) := by
  exact ⟨enrollStudents_ok _ _ _ _, fun i hi hx hf =>
    enrollStudents_enrolls faults courses userId w i hi hx hf,
    enrollStudents_best_effort_aux faults courses userId w⟩

/-- C6, instance: the list names a missing course, then course 10, then
course 11, and every call after the roster update throws; course 11 still
receives user 1, and the request with the matching signature is answered 200. -/
theorem enrollStudents_best_effort_witness :
    (∃ y, (enrollStudents laterFaults [99, 10, 11] 1 exampleWorld).2.courses 11 = some y ∧
        1 ∈ y.studentsEnrolled) ∧
    verifyPayment exampleHmac "key" laterFaults
          { razorpay_order_id := some "order_1", razorpay_payment_id := some "pay_1",
            razorpay_signature := some "mac(key:order_1|pay_1)",
            courses := some [99, 10, 11], userId := some 1 } exampleWorld =
        ({ status := 200, success := true, message := some "Payment Verified",
           data := none }, (enrollStudents laterFaults [99, 10, 11] 1 exampleWorld).2) :=
  ⟨(enrollStudents_best_effort laterFaults [99, 10, 11] 1 exampleWorld).2.1 2
      (by decide) (by decide) (by decide),
   (enrollStudents_best_effort laterFaults [99, 10, 11] 1 exampleWorld).2.2 exampleHmac
      "key" "order_1" "pay_1" "mac(key:order_1|pay_1)"
      (by decide) (by decide) (by decide) (by decide)⟩

/-! ## verifyPayment -/

theorem verifyPayment_accept (hmac : String → String → String) (secret : String)
    (faults : Nat → Faults) (orderId paymentId signature : String)
    (courses : List ObjectId) (userId : ObjectId) (w : World)
    (ho : orderId ≠ "") (hp : paymentId ≠ "") (hs : signature ≠ "")
    (hsig : hmac secret (orderId ++ "|" ++ paymentId) = signature) :
    verifyPayment hmac secret faults
        { razorpay_order_id := some orderId, razorpay_payment_id := some paymentId,
          razorpay_signature := some signature, courses := some courses,
          userId := some userId } w =
      ({ status := 200, success := true, message := some "Payment Verified",
         data := none }, (enrollStudents faults courses userId w).2) :=
  (enrollStudents_best_effort_aux faults courses userId w) hmac secret orderId paymentId
    signature ho hp hs hsig

theorem verifyPayment_reject (hmac : String → String → String) (secret : String)
    (faults : Nat → Faults) (orderId paymentId signature : String)
    (courses : List ObjectId) (userId : ObjectId) (w : World)
    (ho : orderId ≠ "") (hp : paymentId ≠ "") (hs : signature ≠ "")
    (hsig : hmac secret (orderId ++ "|" ++ paymentId) ≠ signature) :
    verifyPayment hmac secret faults
        { razorpay_order_id := some orderId, razorpay_payment_id := some paymentId,
          razorpay_signature := some signature, courses := some courses,
          userId := some userId } w =
      ({ status := 400, success := false, message := some "Invalid signature",
         data := none }, w) := by
  simp [verifyPayment, ho, hp, hs, hsig]

theorem verifyPayment_missing (hmac : String → String → String) (secret : String)
    (faults : Nat → Faults) (orderId paymentId signature : String)
    (courses : List ObjectId) (userId : ObjectId) (w : World)
    (h : orderId = "" ∨ paymentId = "" ∨ signature = "") :
    verifyPayment hmac secret faults
        { razorpay_order_id := some orderId, razorpay_payment_id := some paymentId,
          razorpay_signature := some signature, courses := some courses,
          userId := some userId } w =
      ({ status := 400, success := false, message := some "Payment verification failed",
         data := none }, w) := by
  simp [verifyPayment, h]

/-- C4, as amended: for every order_id, payment_id, courses, userId and every
signature that differs from the keyed hash of `order_id|payment_id`,
`verifyPayment` answers 400 without success and leaves the store untouched, so
nobody is enrolled; the message is "Invalid signature" when order_id,
payment_id and signature are all non-empty and "Payment verification failed"
when one of them is empty. -/
theorem verifyPayment_bad_signature (hmac : String → String → String) (secret : String)
    (faults : Nat → Faults) (orderId paymentId signature : String)
    (courses : List ObjectId) (userId : ObjectId) (w : World)
    (hsig : signature ≠ hmac secret (orderId ++ "|" ++ paymentId)) :
    (verifyPayment hmac secret faults
        { razorpay_order_id := some orderId, razorpay_payment_id := some paymentId,
          razorpay_signature := some signature, courses := some courses,
          userId := some userId } w).1.status = 400 ∧
    (verifyPayment hmac secret faults
        { razorpay_order_id := some orderId, razorpay_payment_id := some paymentId,
          razorpay_signature := some signature, courses := some courses,
          userId := some userId } w).1.success = false ∧
    (verifyPayment hmac secret faults
        { razorpay_order_id := some orderId, razorpay_payment_id := some paymentId,
          razorpay_signature := some signature, courses := some courses,
          userId := some userId } w).2 = w ∧
    (orderId ≠ "" → paymentId ≠ "" → signature ≠ "" →
      (verifyPayment hmac secret faults
        { razorpay_order_id := some orderId, razorpay_payment_id := some paymentId,
          razorpay_signature := some signature, courses := some courses,
          userId := some userId } w).1.message = some "Invalid signature") ∧
    (orderId = "" ∨ paymentId = "" ∨ signature = "" →
      (verifyPayment hmac secret faults
        { razorpay_order_id := some orderId, razorpay_payment_id := some paymentId,
          razorpay_signature := some signature, courses := some courses,
          userId := some userId } w).1.message = some "Payment verification failed") := by
  by_cases h : orderId = "" ∨ paymentId = "" ∨ signature = ""
  · rw [verifyPayment_missing hmac secret faults orderId paymentId signature courses userId w h]
    refine ⟨rfl, rfl, rfl, fun ho hp hs => ?_, fun _ => rfl⟩
    rcases h with h | h | h
    · exact absurd h ho
    · exact absurd h hp
    · exact absurd h hs
  · have ho : orderId ≠ "" := fun e => h (Or.inl e)
    have hp : paymentId ≠ "" := fun e => h (Or.inr (Or.inl e))
    have hs : signature ≠ "" := fun e => h (Or.inr (Or.inr e))
    rw [verifyPayment_reject hmac secret faults orderId paymentId signature courses userId w
      ho hp hs (fun e => hsig e.symm)]
    exact ⟨rfl, rfl, rfl, fun _ _ _ => rfl, fun h2 => absurd h2 h⟩

/-- C4, instance: a non-empty wrong signature for `order_1|pay_1`. -/
theorem verifyPayment_bad_signature_witness :
    (verifyPayment exampleHmac "key" noFaults
        { razorpay_order_id := some "order_1", razorpay_payment_id := some "pay_1",
          razorpay_signature := some "00ff", courses := some [10],
          userId := some 1 } exampleWorld).1.message = some "Invalid signature" :=
  (verifyPayment_bad_signature exampleHmac "key" noFaults "order_1" "pay_1" "00ff" [10] 1
    exampleWorld (by decide)).2.2.2.1 (by decide) (by decide) (by decide)

/-- C4, counterexample: the empty signature differs from the keyed hash of
`order_1|pay_1`, and the answer is "Payment verification failed", not
"Invalid signature". -/
theorem verifyPayment_empty_signature :
    "" ≠ exampleHmac "key" ("order_1" ++ "|" ++ "pay_1") ∧
    (verifyPayment exampleHmac "key" noFaults
        { razorpay_order_id := some "order_1", razorpay_payment_id := some "pay_1",
          razorpay_signature := some "", courses := some [10],
          userId := some 1 } exampleWorld).1.message = some "Payment verification failed" ∧
    (verifyPayment exampleHmac "key" noFaults
        { razorpay_order_id := some "order_1", razorpay_payment_id := some "pay_1",
          razorpay_signature := some "", courses := some [10],
          userId := some 1 } exampleWorld).1.message ≠ some "Invalid signature" := by
  refine ⟨by decide, ?_, ?_⟩ <;> simp [verifyPayment]

theorem enrollStudents_courses_other (faults : Nat → Faults) (courses : List ObjectId)
    (u k : ObjectId) (w : World) (hk : k ∉ courses) :
    (enrollStudents faults courses u w).2.courses k = w.courses k := by
  induction courses generalizing faults w with
  | nil => rfl
  | cons c rest ih =>
    rw [enrollStudents_cons, ih _ _ (fun h => hk (List.mem_cons_of_mem _ h)),
      enrollBody_courses]
    split
    · rfl
    · rw [findByIdAndUpdate_courses]
      have : k ≠ c := fun e => hk (e ▸ List.mem_cons_self _ _)
      simp [this]

/-- C10, as amended: two requests with the same order_id, payment_id and
signature and any present courses and users receive the same answer; when the
three fields are non-empty, either both are rejected with "Invalid signature"
and both stores stay as they are, or both are accepted and each store is the
one `enrollStudents` leaves for the courses and user of that request: courses
outside the supplied list keep their roster and every supplied course that
exists and whose roster update does not throw has the user in its roster.
Nothing but the request body decides the courses. -/
theorem verifyPayment_decision_independent (hmac : String → String → String)
    (secret : String) (f1 f2 : Nat → Faults) (orderId paymentId signature : String)
    (courses1 courses2 : List ObjectId) (user1 user2 : ObjectId) (w1 w2 : World) :
    (verifyPayment hmac secret f1
        { razorpay_order_id := some orderId, razorpay_payment_id := some paymentId,
          razorpay_signature := some signature, courses := some courses1,
          userId := some user1 } w1).1 =
      (verifyPayment hmac secret f2
        { razorpay_order_id := some orderId, razorpay_payment_id := some paymentId,
          razorpay_signature := some signature, courses := some courses2,
          userId := some user2 } w2).1 ∧
    (orderId ≠ "" → paymentId ≠ "" → signature ≠ "" →
      ((verifyPayment hmac secret f1
          { razorpay_order_id := some orderId, razorpay_payment_id := some paymentId,
            razorpay_signature := some signature, courses := some courses1,
            userId := some user1 } w1 =
          ({ status := 400, success := false, message := some "Invalid signature",
             data := none }, w1) ∧
        verifyPayment hmac secret f2
          { razorpay_order_id := some orderId, razorpay_payment_id := some paymentId,
            razorpay_signature := some signature, courses := some courses2,
            userId := some user2 } w2 =
          ({ status := 400, success := false, message := some "Invalid signature",
             data := none }, w2)) ∨
       (verifyPayment hmac secret f1
          { razorpay_order_id := some orderId, razorpay_payment_id := some paymentId,
            razorpay_signature := some signature, courses := some courses1,
            userId := some user1 } w1 =
          ({ status := 200, success := true, message := some "Payment Verified",
             data := none }, (enrollStudents f1 courses1 user1 w1).2) ∧
        verifyPayment hmac secret f2
          { razorpay_order_id := some orderId, razorpay_payment_id := some paymentId,
            razorpay_signature := some signature, courses := some courses2,
            userId := some user2 } w2 =
          ({ status := 200, success := true, message := some "Payment Verified",
             data := none }, (enrollStudents f2 courses2 user2 w2).2)))) ∧
    (∀ k, k ∉ courses1 → (enrollStudents f1 courses1 user1 w1).2.courses k = w1.courses k) ∧
    (∀ (i : Nat) (hi : i < courses1.length),
      (w1.courses (courses1.get ⟨i, hi⟩)).isSome = true → (f1 i).rosterUpdate = false →
      ∃ y, (enrollStudents f1 courses1 user1 w1).2.courses (courses1.get ⟨i, hi⟩) = some y ∧
        user1 ∈ y.studentsEnrolled) := by
  refine ⟨?_, ?_, fun k hk => enrollStudents_courses_other _ _ _ _ _ hk,
    fun i hi hx hf => enrollStudents_enrolls _ _ _ _ i hi hx hf⟩
  · by_cases h : orderId = "" ∨ paymentId = "" ∨ signature = ""
    · rw [verifyPayment_missing _ _ _ _ _ _ _ _ _ h, verifyPayment_missing _ _ _ _ _ _ _ _ _ h]
    · have ho : orderId ≠ "" := fun e => h (Or.inl e)
      have hp : paymentId ≠ "" := fun e => h (Or.inr (Or.inl e))
      have hs : signature ≠ "" := fun e => h (Or.inr (Or.inr e))
      by_cases hsig : hmac secret (orderId ++ "|" ++ paymentId) = signature
      · rw [verifyPayment_accept _ _ _ _ _ _ _ _ _ ho hp hs hsig,
          verifyPayment_accept _ _ _ _ _ _ _ _ _ ho hp hs hsig]
      · rw [verifyPayment_reject _ _ _ _ _ _ _ _ _ ho hp hs hsig,
          verifyPayment_reject _ _ _ _ _ _ _ _ _ ho hp hs hsig]
  · intro ho hp hs
    by_cases hsig : hmac secret (orderId ++ "|" ++ paymentId) = signature
    · exact Or.inr ⟨verifyPayment_accept _ _ _ _ _ _ _ _ _ ho hp hs hsig,
        verifyPayment_accept _ _ _ _ _ _ _ _ _ ho hp hs hsig⟩
    · exact Or.inl ⟨verifyPayment_reject _ _ _ _ _ _ _ _ _ ho hp hs hsig,
        verifyPayment_reject _ _ _ _ _ _ _ _ _ ho hp hs hsig⟩

/-- C10, instance: the matching signature for `order_1|pay_1` sent once for
user 1 with course 10 and once for user 2 with course 11; course 12, which
the first request does not name, keeps its roster. -/
theorem verifyPayment_decision_independent_witness :
    ((verifyPayment exampleHmac "key" noFaults
          { razorpay_order_id := some "order_1", razorpay_payment_id := some "pay_1",
            razorpay_signature := some "mac(key:order_1|pay_1)", courses := some [10],
            userId := some 1 } exampleWorld =
          ({ status := 400, success := false, message := some "Invalid signature",
             data := none }, exampleWorld) ∧
        verifyPayment exampleHmac "key" noFaults
          { razorpay_order_id := some "order_1", razorpay_payment_id := some "pay_1",
            razorpay_signature := some "mac(key:order_1|pay_1)", courses := some [11],
            userId := some 2 } exampleWorld =
          ({ status := 400, success := false, message := some "Invalid signature",
             data := none }, exampleWorld)) ∨
       (verifyPayment exampleHmac "key" noFaults
          { razorpay_order_id := some "order_1", razorpay_payment_id := some "pay_1",
            razorpay_signature := some "mac(key:order_1|pay_1)", courses := some [10],
            userId := some 1 } exampleWorld =
          ({ status := 200, success := true, message := some "Payment Verified",
             data := none }, (enrollStudents noFaults [10] 1 exampleWorld).2) ∧
        verifyPayment exampleHmac "key" noFaults
          { razorpay_order_id := some "order_1", razorpay_payment_id := some "pay_1",
            razorpay_signature := some "mac(key:order_1|pay_1)", courses := some [11],
            userId := some 2 } exampleWorld =
          ({ status := 200, success := true, message := some "Payment Verified",
             data := none }, (enrollStudents noFaults [11] 2 exampleWorld).2))) ∧
    (enrollStudents noFaults [10] 1 exampleWorld).2.courses 12 = exampleWorld.courses 12 ∧
    ∃ y, (enrollStudents noFaults [10] 1 exampleWorld).2.courses 10 = some y ∧
        1 ∈ y.studentsEnrolled :=
  ⟨(verifyPayment_decision_independent exampleHmac "key" noFaults noFaults "order_1" "pay_1"
      "mac(key:order_1|pay_1)" [10] [11] 1 2 exampleWorld exampleWorld).2.1
      (by decide) (by decide) (by decide),
   (verifyPayment_decision_independent exampleHmac "key" noFaults noFaults "order_1" "pay_1"
      "mac(key:order_1|pay_1)" [10] [11] 1 2 exampleWorld exampleWorld).2.2.1 12
      (by decide),
   (verifyPayment_decision_independent exampleHmac "key" noFaults noFaults "order_1" "pay_1"
      "mac(key:order_1|pay_1)" [10] [11] 1 2 exampleWorld exampleWorld).2.2.2 0
      (by decide) (by decide) (by decide)⟩

/-- C10, counterexample: with an empty order_id two requests that differ in
courses and user are both rejected, yet not with "Invalid signature": the
answer is "Payment verification failed". -/
theorem verifyPayment_empty_order_id :
    (verifyPayment exampleHmac "key" noFaults
        { razorpay_order_id := some "", razorpay_payment_id := some "pay_1",
          razorpay_signature := some "00ff", courses := some [10],
          userId := some 1 } exampleWorld).1 =
      { status := 400, success := false, message := some "Payment verification failed",
        data := none } ∧
    (verifyPayment exampleHmac "key" noFaults
        { razorpay_order_id := some "", razorpay_payment_id := some "pay_1",
          razorpay_signature := some "00ff", courses := some [11],
          userId := some 2 } exampleWorld).1 =
      { status := 400, success := false, message := some "Payment verification failed",
        data := none } ∧
    ¬ ((verifyPayment exampleHmac "key" noFaults
        { razorpay_order_id := some "", razorpay_payment_id := some "pay_1",
          razorpay_signature := some "00ff", courses := some [10],
          userId := some 1 } exampleWorld).1.message = some "Invalid signature" ∨
       (verifyPayment exampleHmac "key" noFaults
        { razorpay_order_id := some "", razorpay_payment_id := some "pay_1",
          razorpay_signature := some "00ff", courses := some [10],
          userId := some 1 } exampleWorld).1.status = 200) := by
  refine ⟨?_, ?_, ?_⟩ <;> simp [verifyPayment]

/-! ## capturePayment -/

theorem roundToDouble_safe (x : Int) (h : safeInteger x) : roundToDouble x = .finite x := by
  unfold safeInteger at h
  unfold roundToDouble
  exact if_pos h

theorem totalPrice_cons (w : World) (c : ObjectId) (rest : List ObjectId) :
    totalPrice w (c :: rest) =
      ((w.courses c).bind (fun course => course.price)).getD 0 + totalPrice w rest := by
  simp [totalPrice]

/-- The loop runs through when no lookup throws and every listed course
exists, does not hold the user and has a non-zero price; while the running
totals are safe integers the total grows by the exact sum of the prices. -/
theorem captureLoop_ok (w : World) (uid : ObjectId) (throws : Nat → Option String)
    (courses : List ObjectId) (t : Int)
    (hthrows : ∀ i, i < courses.length → throws i = none)
    (hall : ∀ c ∈ courses, ∃ course, w.courses c = some course ∧
      uid ∉ course.studentsEnrolled ∧ ∃ p, course.price = some p ∧ p ≠ 0)
    (hsafe : ∀ n, safeInteger (t + totalPrice w (courses.take n))) :
    captureLoop w (.ok uid) throws courses (.finite t) =
      .ok (.finite (t + totalPrice w courses)) := by
  induction courses generalizing t throws with
  | nil => simp [captureLoop, totalPrice]
  | cons c rest ih =>
    obtain ⟨course, hc, hnot, p, hp, hp0⟩ := hall c (List.mem_cons_self _ _)
    have h0 : throws 0 = none := hthrows 0 (by simp)
    have hstep : safeInteger (t + p) := by
      have := hsafe 1
      simpa [totalPrice, hc, hp] using this
    rw [captureLoop]
    simp only [h0, hc, List.any_eq_true, decide_eq_true_eq, exists_eq_right, hnot, if_false,
      hp, Option.some.injEq, hp0, or_self, reduceCtorEq, Option.getD_some, JsNumber.add,
      roundToDouble_safe _ hstep]
    rw [ih (fun i => throws (i + 1)) (t + p)
      (fun i hi => hthrows (i + 1) (by simpa using hi))
      (fun x hx => hall x (List.mem_cons_of_mem _ hx))
      (fun n => by
        have := hsafe (n + 1)
        simpa [List.take_succ_cons, totalPrice_cons, hc, hp, add_assoc] using this)]
    simp [totalPrice_cons, hc, hp, add_assoc]

/-- The loop stops with "Already Enrolled in a course" at the first course
holding the user when no lookup up to it throws and all courses before it pass
the checks. -/
theorem captureLoop_enrolled (w : World) (uid : ObjectId) (throws : Nat → Option String)
    (pre post : List ObjectId) (c : ObjectId) (t : JsNumber)
    (hthrows : ∀ i, i ≤ pre.length → throws i = none)
    (hpre : ∀ x ∈ pre, ∃ course, w.courses x = some course ∧
      uid ∉ course.studentsEnrolled ∧ ∃ p, course.price = some p ∧ p ≠ 0)
    (hc : ∃ course, w.courses c = some course ∧ uid ∈ course.studentsEnrolled) :
    captureLoop w (.ok uid) throws (pre ++ c :: post) t =
      .error { status := 400, success := false,
               message := some "Already Enrolled in a course", data := none } := by
  induction pre generalizing t throws with
  | nil =>
    obtain ⟨course, hc1, hmem⟩ := hc
    have h0 : throws 0 = none := hthrows 0 (by simp)
    simp [captureLoop, h0, hc1, hmem]
  | cons x rest ih =>
    obtain ⟨course, hx, hnot, p, hp, hp0⟩ := hpre x (List.mem_cons_self _ _)
    have h0 : throws 0 = none := hthrows 0 (by simp)
    rw [List.cons_append, captureLoop]
    simp only [h0, hx, List.any_eq_true, decide_eq_true_eq, exists_eq_right, hnot, if_false,
      hp, Option.some.injEq, hp0, or_self, reduceCtorEq, Option.getD_some]
    exact ih (fun i => throws (i + 1)) _
      (fun i hi => hthrows (i + 1) (by simpa using hi))
      (fun y hy => hpre y (List.mem_cons_of_mem _ hy))

/-- A list naming a course that holds the user never gets through the loop,
whatever lookups throw. -/
theorem captureLoop_error (w : World) (uid : ObjectId) (throws : Nat → Option String)
    (courses : List ObjectId) (t : JsNumber)
    (h : ∃ c ∈ courses, ∃ course, w.courses c = some course ∧
      uid ∈ course.studentsEnrolled) :
    ∃ r, captureLoop w (.ok uid) throws courses t = .error r ∧ r.success = false ∧
      (r.status = 400 ∨ r.status = 404 ∨ r.status = 500) ∧ r.data = none := by
  induction courses generalizing t throws with
  | nil => obtain ⟨c, hc, _⟩ := h; simp at hc
  | cons x rest ih =>
    rw [captureLoop]
    cases h0 : throws 0 with
    | some e => exact ⟨_, rfl, rfl, Or.inr (Or.inr rfl), rfl⟩
    | none =>
      cases hx : w.courses x with
      | none => exact ⟨_, rfl, rfl, Or.inr (Or.inl rfl), rfl⟩
      | some course =>
        simp only [List.any_eq_true, decide_eq_true_eq, exists_eq_right]
        by_cases hmem : uid ∈ course.studentsEnrolled
        · simp only [hmem, if_true]
          exact ⟨_, rfl, rfl, Or.inl rfl, rfl⟩
        · simp only [hmem, if_false]
          split
          · exact ⟨_, rfl, rfl, Or.inl rfl, rfl⟩
          · apply ih
            obtain ⟨c, hc, course2, hc2, hmem2⟩ := h
            rcases List.mem_cons.mp hc with e | hc
            · subst e
              rw [hx] at hc2
              cases hc2
              exact absurd hmem2 hmem
            · exact ⟨c, hc, course2, hc2, hmem2⟩

/-- C2, as amended: for every course list naming a course whose roster holds
the requesting user, and whatever course lookups throw, `capturePayment`
creates no gateway order (the store and the log of gateway calls stay as they
are) and answers without success, with status 400, 404 or 500; the answer is
400 "Already Enrolled in a course" when no lookup up to such a course throws
and every course listed before it exists, does not hold the user and has a
non-zero price. -/
theorem capturePayment_already_enrolled (gateway : OrderOptions → Except String Order)
    (now : Nat) (throws : Nat → Option String) (courses : List ObjectId) (uid : ObjectId)
    (w : World)
    (h : ∃ c ∈ courses, ∃ course, w.courses c = some course ∧
      uid ∈ course.studentsEnrolled) :
    (capturePayment gateway now throws { courses := some courses, userId := .ok uid } w).2
      = w ∧
    (capturePayment gateway now throws { courses := some courses, userId := .ok uid }
      w).1.success = false ∧
    ((capturePayment gateway now throws { courses := some courses, userId := .ok uid }
        w).1.status = 400 ∨
      (capturePayment gateway now throws { courses := some courses, userId := .ok uid }
        w).1.status = 404 ∨
      (capturePayment gateway now throws { courses := some courses, userId := .ok uid }
        w).1.status = 500) ∧
    (∀ (pre post : List ObjectId) (c : ObjectId), courses = pre ++ c :: post →
      (∀ i, i ≤ pre.length → throws i = none) →
      (∀ x ∈ pre, ∃ course, w.courses x = some course ∧
        uid ∉ course.studentsEnrolled ∧ ∃ p, course.price = some p ∧ p ≠ 0) →
      (∃ course, w.courses c = some course ∧ uid ∈ course.studentsEnrolled) →
      (capturePayment gateway now throws { courses := some courses, userId := .ok uid }
        w).1 =
        { status := 400, success := false, message := some "Already Enrolled in a course",
          data := none }) := by
  have hne : courses.length ≠ 0 := by
    obtain ⟨c, hc, _⟩ := h
    exact fun e => by simp [List.length_eq_zero.mp e] at hc
  obtain ⟨r, hr, hs, hst, _⟩ := captureLoop_error w uid throws courses (.finite 0) h
  refine ⟨?_, ?_, ?_, ?_⟩
  · simp [capturePayment, hne, hr]
  · simp [capturePayment, hne, hr, hs]
  · simpa [capturePayment, hne, hr] using hst
  · intro pre post c hsplit hthrows hpre hc
    subst hsplit
    have := captureLoop_enrolled w uid throws pre post c (.finite 0) hthrows hpre hc
    simp [capturePayment, hne, this]

/-- C2, instance: course 10 passes the checks and course 13 holds user 1. -/
theorem capturePayment_already_enrolled_witness :
    (capturePayment exampleGateway 0 noThrows { courses := some [10, 13], userId := .ok 1 }
        exampleWorld).1 =
      { status := 400, success := false, message := some "Already Enrolled in a course",
        data := none } :=
  (capturePayment_already_enrolled exampleGateway 0 noThrows [10, 13] 1 exampleWorld
    ⟨13, by decide, course13, rfl, by decide⟩).2.2.2 [10] [] 13 rfl
    (fun _ _ => rfl)
    (fun x hx => by
      rw [List.mem_singleton] at hx
      subst hx
      exact ⟨course10, rfl, by decide, 500, rfl, by decide⟩)
    ⟨course13, rfl, by decide⟩

/-- C2, counterexample: the list names a missing course before course 13,
whose roster holds user 1; no lookup throws, and the answer is 404, not 400
"Already Enrolled in a course". -/
theorem capturePayment_missing_before_enrolled :
    (∃ course, exampleWorld.courses 13 = some course ∧ 1 ∈ course.studentsEnrolled) ∧
    (capturePayment exampleGateway 0 noThrows { courses := some [99, 13], userId := .ok 1 }
        exampleWorld).1.status = 404 ∧
    (capturePayment exampleGateway 0 noThrows { courses := some [99, 13], userId := .ok 1 }
        exampleWorld).1.message ≠ some "Already Enrolled in a course" := by
  refine ⟨⟨course13, rfl, by decide⟩, ?_, ?_⟩
  · simp [capturePayment, captureLoop, exampleWorld, noThrows]
  · simp [capturePayment, captureLoop, exampleWorld, noThrows]
    decide

/-- C3, as amended: for every non-empty list of course ids in which every
course is looked up without an error, exists, has a non-zero integer price and
does not hold the requesting user, and for which the prices, their running
totals and 100 times their sum are safe integers (magnitude below `2 ^ 53`),
`capturePayment` hands exactly one order request to the gateway, with amount
100 times the sum of the listed prices and currency INR, changes nothing else,
and, when the gateway returns an order object, answers 200 with that object as
data. -/
theorem capturePayment_creates_order (gateway : OrderOptions → Except String Order)
    (now : Nat) (throws : Nat → Option String) (courses : List ObjectId) (uid : ObjectId)
    (w : World)
    (hne : courses ≠ [])
    (hthrows : ∀ i, i < courses.length → throws i = none)
    (hall : ∀ c ∈ courses, ∃ course, w.courses c = some course ∧
      uid ∉ course.studentsEnrolled ∧
      ∃ p, course.price = some p ∧ p ≠ 0 ∧ safeInteger p)
    (hsums : ∀ n, safeInteger (totalPrice w (courses.take n)))
    (hamount : safeInteger (totalPrice w courses * 100)) :
    (capturePayment gateway now throws { courses := some courses, userId := .ok uid } w).2 =
      { w with orders := w.orders ++
          [{ amount := .finite (totalPrice w courses * 100), currency := "INR",
             receipt := "receipt_" ++ toString now,
             notesUserId := some uid, notesCourses := courses }] } ∧
    (∀ order,
      gateway { amount := .finite (totalPrice w courses * 100), currency := "INR",
                receipt := "receipt_" ++ toString now,
                notesUserId := some uid, notesCourses := courses } = .ok order →
      (capturePayment gateway now throws { courses := some courses, userId := .ok uid }
        w).1 =
        { status := 200, success := true, message := none, data := some order }) := by
  have hlen : courses.length ≠ 0 := fun e => hne (List.length_eq_zero.mp e)
  have hloop := captureLoop_ok w uid throws courses 0 hthrows
    (fun c hc => by
      obtain ⟨course, h1, h2, p, h3, h4, _⟩ := hall c hc
      exact ⟨course, h1, h2, p, h3, h4⟩)
    (fun n => by simpa using hsums n)
  rw [zero_add] at hloop
  constructor
  · simp only [capturePayment, hlen, if_false, hloop, JsNumber.times100,
      roundToDouble_safe _ hamount, Except.toOption]
    cases gateway _ <;> rfl
  · intro order hg
    simp only [capturePayment, hlen, if_false, hloop, JsNumber.times100,
      roundToDouble_safe _ hamount, Except.toOption, hg]

/-- C3, instance: the single course 10, priced 500, gives an order of amount
50000. -/
theorem capturePayment_creates_order_witness :
    (capturePayment exampleGateway 0 noThrows { courses := some [10], userId := .ok 1 }
        exampleWorld).2.orders =
      [{ amount := .finite 50000, currency := "INR", receipt := "receipt_0",
         notesUserId := some 1, notesCourses := [10] }] ∧
    (capturePayment exampleGateway 0 noThrows { courses := some [10], userId := .ok 1 }
        exampleWorld).1 =
      { status := 200, success := true, message := none,
        data := some { id := "order_1", amount := .finite 50000, currency := "INR",
                       receipt := "receipt_0" } } := by
  have h := capturePayment_creates_order exampleGateway 0 noThrows [10] 1 exampleWorld
    (by decide) (fun _ _ => rfl)
    (fun x hx => by
      rw [List.mem_singleton] at hx
      subst hx
      exact ⟨course10, rfl, by decide, 500, rfl, by decide,
        by unfold safeInteger; decide⟩)
    (fun n => by
      rcases n with _ | n
      · unfold safeInteger; decide
      · rw [List.take_succ_cons, List.take_nil]; unfold safeInteger; decide)
    (by unfold safeInteger; decide)
  refine ⟨?_, ?_⟩
  · rw [h.1]; decide
  · rw [h.2 _ rfl]; decide

/-- C3, counterexample: course 12 exists, has its price set (to 0) and does not
hold user 1, yet `capturePayment` answers 400 "Course has no price" and creates
no order; and for the courses 14 and 15, priced `2 ^ 53` and 1, the order
amount is 900719925474099200, which is not 100 times the sum of the prices,
900719925474099300. -/
theorem capturePayment_zero_price :
    (∃ course, exampleWorld.courses 12 = some course ∧ course.price = some 0 ∧
      1 ∉ course.studentsEnrolled) ∧
    capturePayment exampleGateway 0 noThrows { courses := some [12], userId := .ok 1 }
        exampleWorld =
      ({ status := 400, success := false, message := some "Course has no price",
         data := none }, exampleWorld) ∧
    (capturePayment exampleGateway 0 noThrows { courses := some [12], userId := .ok 1 }
        exampleWorld).2.orders = [] ∧
    (capturePayment exampleGateway 0 noThrows { courses := some [14, 15], userId := .ok 1 }
        exampleWorld).2.orders.map (fun o => o.amount) =
      [.finite 900719925474099200] ∧
    totalPrice exampleWorld [14, 15] * 100 = 900719925474099300 := by
  refine ⟨⟨course12, rfl, rfl, by decide⟩, ?_, ?_, by decide, by decide⟩
  · simp [capturePayment, captureLoop, exampleWorld, course12, noThrows]
  · simp [capturePayment, captureLoop, exampleWorld, course12, noThrows]

/-! ## getEnrolledCourses -/

theorem sectionsLoop_length (l : List Section) (a : Nat) (b : Option Nat) (n : Nat) :
    (sectionsLoop l (a, b, n)).2.2 = n + (l.map (fun s => s.subSection.length)).sum := by
  induction l generalizing a b n with
  | nil => simp [sectionsLoop]
  | cons s rest ih =>
    rw [sectionsLoop]
    simp only [ih, List.map_cons, List.sum_cons]
    omega

theorem enrolledCourse_zero (roundedPercent : Nat → Nat → ℚ) (userId : ObjectId)
    (w : World) (course : Course) (h : course.subsectionCount = 0) :
    (enrolledCourse roundedPercent userId w course).progressPercentage = 100 := by
  have hlen : (sectionsLoop course.courseContent (0, none, 0)).2.2 = 0 := by
    rw [sectionsLoop_length, Nat.zero_add]
    exact h
  simp [enrolledCourse, hlen, progressPercentage]

/-- C7: whatever the completed-video count and whatever the floating-point
quotient of the other branch computes, zero subsections give 100 through the
branch that does not divide; every entry `getEnrolledCourses` reports for a
course with zero subsections in total has `progressPercentage = 100`; and for
an existing user each enrolled course that exists and has zero subsections is
reported, with 100, whether or not a progress record exists. -/
theorem getEnrolledCourses_zero_subsections (roundedPercent : Nat → Nat → ℚ)
    (userId : ObjectId) (w : World) :
    (∀ count : Nat, progressPercentage roundedPercent count 0 = 100) ∧
    (∀ r ∈ (getEnrolledCourses roundedPercent userId w).data.getD [],
      r.course.subsectionCount = 0 → r.progressPercentage = 100) ∧
    (∀ userDetails, w.users userId = some userDetails →
      ∀ c ∈ userDetails.courses, ∀ course, w.courses c = some course →
        course.subsectionCount = 0 →
        (getEnrolledCourses roundedPercent userId w).status = 200 ∧
        ∃ r ∈ (getEnrolledCourses roundedPercent userId w).data.getD [],
          r.course = course ∧ r.progressPercentage = 100) := by
  refine ⟨fun count => by simp [progressPercentage], ?_, ?_⟩
  · intro r hr hzero
    unfold getEnrolledCourses at hr
    cases hu : w.users userId with
    | none => simp [hu] at hr
    | some userDetails =>
      simp only [hu, Option.getD_some, List.mem_map] at hr
      obtain ⟨course, _, rfl⟩ := hr
      exact enrolledCourse_zero roundedPercent userId w course hzero
  · intro userDetails hu c hc course hcourse hzero
    simp only [getEnrolledCourses, hu, Option.getD_some, List.mem_map, true_and]
    refine ⟨enrolledCourse roundedPercent userId w course, ⟨course, ?_, rfl⟩, rfl,
      enrolledCourse_zero roundedPercent userId w course hzero⟩
    exact List.mem_filterMap.mpr ⟨c, hc, hcourse⟩

/-- C7, instance: user 1 has completed two videos in course 10, which has no
sections; the course is reported with 100. -/
theorem getEnrolledCourses_zero_subsections_witness :
    (getEnrolledCourses examplePercent 1 watchedWorld).status = 200 ∧
    ∃ r ∈ (getEnrolledCourses examplePercent 1 watchedWorld).data.getD [],
      r.course = { course10 with studentsEnrolled := [1] } ∧ r.progressPercentage = 100 :=
  (getEnrolledCourses_zero_subsections examplePercent 1 watchedWorld).2.2
    { exampleUser with courses := [10, 11], courseProgress := [100, 101] } (by decide)
    10 (by decide) { course10 with studentsEnrolled := [1] } (by decide) (by decide)

/-! ## updateProfile -/

/-- C8: for an existing user with an existing profile, `updateProfile`
answers 200 and leaves each of the six fields equal to the value the body
carries, or to the empty string when the body does not carry the field,
whatever the fields held before. -/
theorem updateProfile_blanks_omitted (body : ProfileBody) (id : ObjectId) (w : World)
    (userDetails : User) (profile : Profile)
    (hu : w.users id = some userDetails)
    (hp : w.profiles userDetails.additionalDetails = some profile) :
    (updateProfile body id w).1.status = 200 ∧
    ∃ (user2 : User) (profile2 : Profile),
      (updateProfile body id w).2.users id = some user2 ∧
      (updateProfile body id w).2.profiles userDetails.additionalDetails = some profile2 ∧
      (updateProfile body id w).1.data = some (user2, some profile2) ∧
      user2.firstName = body.firstName.getD "" ∧
      user2.lastName = body.lastName.getD "" ∧
      profile2.dateOfBirth = body.dateOfBirth.getD "" ∧
      profile2.about = body.about.getD "" ∧
      profile2.contactNumber = body.contactNumber.getD "" ∧
      profile2.gender = body.gender.getD "" := by
  simp [updateProfile, hu, hp, setDoc]

/-- C8, instance: the body carries only `about = "x"`; the names, date of
birth, contact number and gender of the example user, all non-empty before,
end up empty and `about` is "x". -/
theorem updateProfile_blanks_omitted_witness :
    (updateProfile aboutOnly 1 exampleWorld).1.status = 200 ∧
    ∃ (user2 : User) (profile2 : Profile),
      (updateProfile aboutOnly 1 exampleWorld).2.users 1 = some user2 ∧
      (updateProfile aboutOnly 1 exampleWorld).2.profiles 5 = some profile2 ∧
      (updateProfile aboutOnly 1 exampleWorld).1.data = some (user2, some profile2) ∧
      user2.firstName = "" ∧ user2.lastName = "" ∧ profile2.dateOfBirth = "" ∧
      profile2.about = "x" ∧ profile2.contactNumber = "" ∧ profile2.gender = "" :=
  updateProfile_blanks_omitted aboutOnly 1 exampleWorld exampleUser exampleProfile
    (by decide) (by decide)

/-! ## deleteAccount -/

theorem applyUpdate_pull_studentsEnroled (id : ObjectId) (c : Course) :
    c.applyUpdate (.pull "studentsEnroled" id) = c := by
  simp [Course.applyUpdate]

/-- The `$pull` loop of `deleteAccount` leaves every roster as it is. -/
theorem deleteAccount_loop_rosters (id : ObjectId) (courses : List ObjectId) (w : World)
    (k : ObjectId) :
    ((courses.foldl (fun acc courseId =>
        (Course.findByIdAndUpdate courseId (.pull "studentsEnroled" id) acc).2) w).courses
        k).map (fun c => c.studentsEnrolled) =
      (w.courses k).map (fun c => c.studentsEnrolled) := by
  induction courses generalizing w with
  | nil => rfl
  | cons c rest ih =>
    rw [List.foldl_cons, ih]
    unfold Course.findByIdAndUpdate
    cases hc : w.courses c with
    | none => rfl
    | some x =>
      by_cases hk : k = c
      · subst hk
        simp [setDoc, applyUpdate_pull_studentsEnroled, hc]
      · simp [setDoc, hk]

/-- No run of `deleteAccount` changes the roster of any course. -/
theorem deleteAccount_rosters_unchanged (id : ObjectId) (w : World) (k : ObjectId) :
    ((deleteAccount id w).2.courses k).map (fun c => c.studentsEnrolled) =
      (w.courses k).map (fun c => c.studentsEnrolled) := by
  unfold deleteAccount
  cases hu : w.users id with
  | none => rfl
  | some user =>
    simp only [CourseProgress.deleteMany]
    exact deleteAccount_loop_rosters id user.courses _ k

/-- C1, the code at the failing input: user 1 is enrolled in the courses 10
and 11 and holds two progress records; `deleteAccount` answers 200, deletes
the user, the profile and the progress records, and user 1 is still in the
roster of both courses. -/
theorem deleteAccount_leaves_user_in_rosters :
    (enrolledWorld.users 1).map (fun u => u.courses) = some [10, 11] ∧
    (enrolledWorld.courses 10).map (fun c => c.studentsEnrolled) = some [1] ∧
    (enrolledWorld.courses 11).map (fun c => c.studentsEnrolled) = some [1] ∧
    enrolledWorld.progress.map (fun p => (p.courseID, p.userId)) = [(10, 1), (11, 1)] ∧
    (deleteAccount 1 enrolledWorld).1.status = 200 ∧
    (deleteAccount 1 enrolledWorld).2.users 1 = none ∧
    (deleteAccount 1 enrolledWorld).2.profiles 5 = none ∧
    (deleteAccount 1 enrolledWorld).2.progress = [] ∧
    ((deleteAccount 1 enrolledWorld).2.courses 10).map (fun c => c.studentsEnrolled)
      = some [1] ∧
    ((deleteAccount 1 enrolledWorld).2.courses 11).map (fun c => c.studentsEnrolled)
      = some [1] := by
  decide

end StudyNotion
